import Mathlib

/-!
Verification of the per-peer BGP finite state machine described by the
repository's specification, against the code in `src/bgp/state_machine.h`
and `src/vnsw/agent/services/bfd_proto.cc`.

The header `state_machine.h` fixes the timer constants, the `State`
enumeration, the fields of the `StateMachine` class (session slots, timers,
counters, notification records, the `deleted_` flag) and the inline bodies
of the small accessors (`reset_idle_hold_time`, `connect_attempts_inc`,
`set_idle_hold_time`).  The bodies of the transition reactions live in
`state_machine.cc`, which is not part of the sources given; those parts are
modelled from the specification text and are marked `Modelled from the
spec:` below.  Time-stamps (`last_event_at_`, `last_state_change_at_`,
`last_notification_*_at_`) and log strings are not modelled: no claim
mentions them.
-/

namespace BgpFsm

/-- The `StateMachine::State` enumeration of `src/bgp/state_machine.h`
(IDLE = 0 .. ESTABLISHED = 5). -/
inductive State where
  | IDLE
  | ACTIVE
  | CONNECT
  | OPENSENT
  | OPENCONFIRM
  | ESTABLISHED
deriving DecidableEq, Repr

/-- `StateMachine::kOpenTime` (seconds), from `src/bgp/state_machine.h`. -/
def kOpenTime : Nat := 15

/-- `StateMachine::kConnectInterval` (seconds), from `src/bgp/state_machine.h`. -/
def kConnectInterval : Nat := 30

/-- `StateMachine::kHoldTime` (seconds), from `src/bgp/state_machine.h`. -/
def kHoldTime : Nat := 90

/-- `StateMachine::kOpenSentHoldTime` (seconds), from `src/bgp/state_machine.h`. -/
def kOpenSentHoldTime : Nat := 240

/-- `StateMachine::kIdleHoldTime` (milliseconds), from `src/bgp/state_machine.h`. -/
def kIdleHoldTime : Nat := 5000

/-- `StateMachine::kMaxIdleHoldTime` (milliseconds), from `src/bgp/state_machine.h`. -/
def kMaxIdleHoldTime : Nat := 100 * 1000

/-- `StateMachine::kJitter` (percentage), from `src/bgp/state_machine.h`. -/
def kJitter : Nat := 10

/-- A BGP session handle as far as the state machine observes it: its
identity (the `BgpSession *` pointer is modelled as a numeric id) and
whether an OPEN message has been received on it (needed by the collision
resolution trigger of spec section 4.3/4.5). -/
structure Session where
  id : Nat
  openRcvd : Bool
deriving DecidableEq, Repr

/-- The event alphabet of the state machine, from the spec's data model
(section 3) which matches the `fsm::Ev*` events that `state_machine.h`
forward-declares.  Session-bearing events carry the session id; `EvBgpOpen`
carries the peer's BGP identifier and hold time; `EvBgpNotification`
carries the received (code, subcode, reason). -/
inductive Event where
  | EvStart
  | EvStop
  | EvAdminDown (down : Bool)
  | EvTcpConnected (sid : Nat)
  | EvTcpConnectFail (sid : Nat)
  | EvTcpClose (sid : Nat)
  | EvTcpPassiveOpen (sid : Nat)
  | EvTcpDeleteSession (sid : Nat)
  | EvBgpOpen (sid : Nat) (remoteId : Nat) (holdTime : Nat)
  | EvBgpKeepalive (sid : Nat)
  | EvBgpUpdate (sid : Nat)
  | EvBgpNotification (sid : Nat) (code : Nat) (subcode : Nat) (reason : String)
  | EvBgpHeaderError (sid : Nat)
  | EvBgpOpenError (sid : Nat)
  | EvBgpUpdateError (sid : Nat)
  | EvConnectTimerExpired
  | EvOpenTimerExpired
  | EvHoldTimerExpired
  | EvIdleHoldTimerExpired
deriving DecidableEq, Repr

/-- The state of one `StateMachine` instance: the fields of the
`StateMachine` class in `src/bgp/state_machine.h` (lines 194-216).  The
four `Timer *` members are modelled by their running flags (the only
observable the claims use, via `*TimerRunning()`); `nextSessionId`
replaces the allocator of `BgpSession` objects; `localId`/`peerId` model
the router identifiers that collision resolution compares (the local one
lives on the `BgpPeer`, the remote one is learned from the OPEN). -/
structure StateMachine where
  state : State
  active_session : Option Session
  passive_session : Option Session
  connectTimerRunning : Bool
  openTimerRunning : Bool
  holdTimerRunning : Bool
  idleHoldTimerRunning : Bool
  hold_time : Nat
  idle_hold_time : Nat
  attempts : Nat
  admin_down : Bool
  deleted : Bool
  localId : Nat
  peerId : Nat
  nextSessionId : Nat
  last_notification_in : Nat × Nat × String
  last_notification_out : Nat × Nat × String
deriving DecidableEq, Repr

/-- `StateMachine::set_last_notification_out` (declared in
`state_machine.h` line 165): record the last outbound notification triple. -/
def set_last_notification_out (sm : StateMachine) (code subcode : Nat)
    (reason : String) : StateMachine :=
  { sm with last_notification_out := (code, subcode, reason) }

/-- `StateMachine::set_last_notification_in` (declared in
`state_machine.h` line 163): record the last inbound notification triple. -/
def set_last_notification_in (sm : StateMachine) (code subcode : Nat)
    (reason : String) : StateMachine :=
  { sm with last_notification_in := (code, subcode, reason) }

/-- Observer for the last outbound notification (spec section 6:
"last inbound/outgoing notification (code, subcode, reason)"). -/
def last_notification_out_info (sm : StateMachine) : Nat × Nat × String :=
  sm.last_notification_out

/-- `StateMachine::reset_idle_hold_time`, inline in `state_machine.h`
line 152: `idle_hold_time_ = 0`. -/
def reset_idle_hold_time (sm : StateMachine) : StateMachine :=
  { sm with idle_hold_time := 0 }

/-- `StateMachine::connect_attempts_inc`, inline in `state_machine.h`
line 145: `attempts_++`. -/
def connect_attempts_inc (sm : StateMachine) : StateMachine :=
  { sm with attempts := sm.attempts + 1 }

/-- `StateMachine::SendNotificationAndClose` (declared in
`state_machine.h` line 131; default subcode 0, empty data).  Modelled from
the spec: sending records the triple as the last outbound notification;
the transport close itself has no further FSM-visible effect. -/
def SendNotificationAndClose (sm : StateMachine) (code : Nat) : StateMachine :=
  set_last_notification_out sm code 0 ""

/-- Modelled from the spec: entry into Idle (spec section 4.3 state-entry
table): cancel the Connect, Open and Hold timers, tear down both session
slots, and start the IdleHoldTimer unless the peer is administratively
down or the backoff time is 0. -/
def enterIdle (sm : StateMachine) : StateMachine :=
  { sm with
    state := .IDLE, active_session := none, passive_session := none,
    connectTimerRunning := false, openTimerRunning := false,
    holdTimerRunning := false,
    idleHoldTimerRunning := !sm.admin_down && sm.idle_hold_time != 0 }

/-- Modelled from the spec: the backoff update applied on a flap
(spec section 9, "Backoff with ceiling":
`idle_hold_time_next = clamp(max(initial, 2 * current), 0, 100000ms)`,
with initial = `kIdleHoldTime` and ceiling = `kMaxIdleHoldTime`). -/
def nextIdleHoldTime (cur : Nat) : Nat :=
  min (max kIdleHoldTime (2 * cur)) kMaxIdleHoldTime

/-- Modelled from the spec: a flap — a drop to Idle with backoff
(spec sections 4.3 and 8): double the idle hold time up to the ceiling,
then perform the Idle entry actions. -/
def OnIdleFlap (sm : StateMachine) : StateMachine :=
  enterIdle { sm with idle_hold_time := nextIdleHoldTime sm.idle_hold_time }

/-- Modelled from the spec: `StateMachine::OnIdle` (spec section 4.3,
"Uniform Idle transitions"): standard administrative drop to Idle, no
notification sent, no backoff growth, IdleHoldTimer restarted with the
current backoff by the Idle entry actions. -/
def OnIdle (sm : StateMachine) : StateMachine :=
  enterIdle sm

/-- Modelled from the spec: `StateMachine::OnIdleError` (spec section 4.3):
send a Notification with the given code on the offending session, then
drop to Idle with backoff. -/
def OnIdleError (sm : StateMachine) (code : Nat) : StateMachine :=
  OnIdleFlap (SendNotificationAndClose sm code)

/-- Modelled from the spec: `StateMachine::OnIdleNotification`
(spec section 4.3): record the received notification as the last inbound
notification, send none, and drop to Idle with backoff. -/
def OnIdleNotification (sm : StateMachine) (code subcode : Nat)
    (reason : String) : StateMachine :=
  OnIdleFlap (set_last_notification_in sm code subcode reason)

/-- Modelled from the spec: entry into Active (spec section 4.3 table):
start the ConnectTimer, cancel the Open and Hold timers.  The IdleHold
timer is one-shot and only ever runs in Idle (spec invariant 5), so
leaving Idle clears its running flag. -/
def enterActive (sm : StateMachine) : StateMachine :=
  { sm with
    state := .ACTIVE, connectTimerRunning := true,
    openTimerRunning := false, holdTimerRunning := false,
    idleHoldTimerRunning := false }

/-- Modelled from the spec: entry into Connect (spec section 4.3 table):
start the ConnectTimer, cancel the Open and Hold timers. -/
def enterConnect (sm : StateMachine) : StateMachine :=
  { sm with
    state := .CONNECT, connectTimerRunning := true,
    openTimerRunning := false, holdTimerRunning := false,
    idleHoldTimerRunning := false }

/-- Modelled from the spec: entry into OpenSent (spec section 4.3 table):
start the HoldTimer (at `kOpenSentHoldTime`), cancel the Connect and Open
timers. -/
def enterOpenSent (sm : StateMachine) : StateMachine :=
  { sm with
    state := .OPENSENT, holdTimerRunning := true,
    connectTimerRunning := false, openTimerRunning := false,
    idleHoldTimerRunning := false }

/-- Modelled from the spec: entry into OpenConfirm (spec section 4.3
table): HoldTimer runs at the negotiated value, Connect and Open timers
cancelled. -/
def enterOpenConfirm (sm : StateMachine) : StateMachine :=
  { sm with
    state := .OPENCONFIRM, holdTimerRunning := true,
    connectTimerRunning := false, openTimerRunning := false,
    idleHoldTimerRunning := false }

/-- Modelled from the spec: entry into Established (spec sections 4.3 and
8): HoldTimer runs at the negotiated value, Connect and Open timers
cancelled, and the idle hold backoff is reset to 0
(`reset_idle_hold_time`, inline in `state_machine.h`). -/
def enterEstablished (sm : StateMachine) : StateMachine :=
  { (reset_idle_hold_time sm) with
    state := .ESTABLISHED,
    holdTimerRunning := true, connectTimerRunning := false,
    openTimerRunning := false, idleHoldTimerRunning := false }

/-- `StateMachine::StartSession` (declared in `state_machine.h` line 121).
Modelled from the spec: initiate the outbound TCP connect, creating a
fresh active session. -/
def StartSession (sm : StateMachine) : StateMachine :=
  { sm with
    active_session := some ⟨sm.nextSessionId, false⟩,
    nextSessionId := sm.nextSessionId + 1 }

/-- Does `sid` name the current active or passive session? -/
def sessionMatch (sm : StateMachine) (sid : Nat) : Bool :=
  (sm.active_session.any fun a => a.id == sid) ||
  (sm.passive_session.any fun p => p.id == sid)

/-- Modelled from the spec: collision resolution (spec section 4.5,
RFC 4271 section 6.8).  Called when both sessions have seen an OPEN.  The
session initiated by the peer with the numerically higher BGP identifier
is kept and the FSM proceeds to OpenConfirm with it; the other session is
closed with Notification(Cease = 6).  Equal identifiers are a
configuration error: drop to Idle. -/
def collisionResolve (sm : StateMachine) : StateMachine :=
  if sm.localId < sm.peerId then
    -- the remote peer has the higher id: keep its session (the passive one)
    enterOpenConfirm (SendNotificationAndClose
      { sm with active_session := none } 6)
  else if sm.peerId < sm.localId then
    -- the local side has the higher id: keep the session it initiated
    enterOpenConfirm (SendNotificationAndClose
      { sm with passive_session := none } 6)
  else
    OnIdleFlap sm

/-- Modelled from the spec: the OpenSent reaction to `BgpOpen(s, msg)`
(spec section 4.3): negotiate hold = min(ours, theirs), send KEEPALIVE,
restart the HoldTimer with the negotiated value, mark the OPEN as seen on
the matching session; if both sessions have now seen an OPEN, run
collision resolution, otherwise proceed to OpenConfirm when only one
session exists.  An OPEN for a session in neither slot is discarded. -/
def processOpen (sm : StateMachine) (sid remoteId ht : Nat) : StateMachine :=
  match sm.active_session, sm.passive_session with
  | some a, some p =>
    if sid = a.id then
      let sm2 := { sm with
        active_session := some { a with openRcvd := true },
        peerId := remoteId, hold_time := min sm.hold_time ht,
        holdTimerRunning := true }
      if p.openRcvd then collisionResolve sm2 else sm2
    else if sid = p.id then
      let sm2 := { sm with
        passive_session := some { p with openRcvd := true },
        peerId := remoteId, hold_time := min sm.hold_time ht,
        holdTimerRunning := true }
      if a.openRcvd then collisionResolve sm2 else sm2
    else sm
  | some a, none =>
    if sid = a.id then
      enterOpenConfirm { sm with
        active_session := some { a with openRcvd := true },
        peerId := remoteId, hold_time := min sm.hold_time ht }
    else sm
  | none, some p =>
    if sid = p.id then
      enterOpenConfirm { sm with
        passive_session := some { p with openRcvd := true },
        peerId := remoteId, hold_time := min sm.hold_time ht }
    else sm
  | none, none => sm

/-- Modelled from the spec: Idle reactions (spec section 4.3).  `Start` or
`IdleHoldTimerExpired` move to Active; everything else is discarded as a
stray.  (`Stop` and `AdminDown` are handled uniformly in `step`.) -/
def stepIdle (sm : StateMachine) (e : Event) : StateMachine :=
  match e with
  | .EvStart => enterActive sm
  | .EvIdleHoldTimerExpired => enterActive sm
  | _ => sm

/-- Modelled from the spec: Active reactions (spec section 4.3). -/
def stepActive (sm : StateMachine) (e : Event) : StateMachine :=
  match e with
  | .EvConnectTimerExpired => enterConnect (StartSession sm)
  | .EvTcpPassiveOpen sid =>
    -- bind s as passive session, send OPEN, go to OpenSent; the interim
    -- OpenTimer start is superseded by the OpenSent entry actions
    enterOpenSent { sm with passive_session := some ⟨sid, false⟩ }
  | .EvTcpClose sid =>
    match sm.passive_session with
    | some p => if sid = p.id then { sm with passive_session := none } else sm
    | none => sm
  | .EvBgpNotification _ c s r => OnIdleNotification sm c s r
  | .EvBgpHeaderError _ => OnIdleError sm 1
  | .EvBgpOpenError _ => OnIdleError sm 2
  | .EvBgpUpdateError _ => OnIdleError sm 3
  | _ => OnIdleError sm 5

/-- Modelled from the spec: Connect reactions (spec section 4.3 for the
session events; the `TcpConnectFailed` target state follows the end-to-end
scenario 5 of spec section 8 and RFC 4271: the failed active session is
deleted, the attempt counter incremented and the FSM falls back to Active,
restarting the ConnectTimer). -/
def stepConnect (sm : StateMachine) (e : Event) : StateMachine :=
  match e with
  | .EvTcpConnected sid =>
    match sm.active_session with
    | some a => if sid = a.id then enterOpenSent sm else sm
    | none => sm
  | .EvTcpConnectFail sid =>
    match sm.active_session with
    | some a =>
      if sid = a.id then
        enterActive (connect_attempts_inc { sm with active_session := none })
      else sm
    | none => sm
  | .EvTcpPassiveOpen sid =>
    { sm with passive_session := some ⟨sid, false⟩ }
  | .EvConnectTimerExpired =>
    enterActive { sm with active_session := none }
  | .EvBgpNotification _ c s r => OnIdleNotification sm c s r
  | .EvBgpHeaderError _ => OnIdleError sm 1
  | .EvBgpOpenError _ => OnIdleError sm 2
  | .EvBgpUpdateError _ => OnIdleError sm 3
  | _ => OnIdleError sm 5

/-- Modelled from the spec: OpenSent reactions (spec section 4.3). -/
def stepOpenSent (sm : StateMachine) (e : Event) : StateMachine :=
  match e with
  | .EvBgpOpen sid rid ht => processOpen sm sid rid ht
  | .EvHoldTimerExpired => OnIdleError sm 4
  | .EvTcpClose sid =>
    match sm.active_session, sm.passive_session with
    | some a, some p =>
      if sid = a.id then { sm with active_session := none }
      else if sid = p.id then { sm with passive_session := none }
      else sm
    | some a, none =>
      if sid = a.id then OnIdleFlap { sm with active_session := none } else sm
    | none, some p =>
      if sid = p.id then OnIdleFlap { sm with passive_session := none } else sm
    | none, none => sm
  | .EvBgpNotification _ c s r => OnIdleNotification sm c s r
  | .EvBgpHeaderError _ => OnIdleError sm 1
  | .EvBgpOpenError _ => OnIdleError sm 2
  | .EvBgpUpdateError _ => OnIdleError sm 3
  | _ => OnIdleError sm 5

/-- Modelled from the spec: OpenConfirm reactions (spec section 4.3). -/
def stepOpenConfirm (sm : StateMachine) (e : Event) : StateMachine :=
  match e with
  | .EvBgpKeepalive sid =>
    if sessionMatch sm sid then enterEstablished sm else sm
  | .EvHoldTimerExpired => OnIdleError sm 4
  | .EvBgpNotification _ c s r => OnIdleNotification sm c s r
  | .EvBgpHeaderError _ => OnIdleError sm 1
  | .EvBgpOpenError _ => OnIdleError sm 2
  | .EvBgpUpdateError _ => OnIdleError sm 3
  | _ => OnIdleError sm 5

/-- Modelled from the spec: Established reactions (spec section 4.3). -/
def stepEstablished (sm : StateMachine) (e : Event) : StateMachine :=
  match e with
  | .EvBgpKeepalive sid =>
    if sessionMatch sm sid then { sm with holdTimerRunning := true } else sm
  | .EvBgpUpdate sid =>
    if sessionMatch sm sid then { sm with holdTimerRunning := true } else sm
  | .EvTcpClose sid =>
    if sessionMatch sm sid then OnIdleFlap sm else sm
  | .EvBgpNotification _ c s r => OnIdleNotification sm c s r
  | .EvHoldTimerExpired => OnIdleError sm 4
  | .EvBgpHeaderError _ => OnIdleError sm 1
  | .EvBgpOpenError _ => OnIdleError sm 2
  | .EvBgpUpdateError _ => OnIdleError sm 3
  | _ => OnIdleError sm 5

/-- Modelled from the spec: one FSM step — dispatch one event to the
current state's reaction table.  `Stop` drops to Idle from every state
(no backoff growth); `AdminDown(true)` sets the administrative flag,
tears everything down and holds the FSM in Idle with the IdleHoldTimer
cancelled; `AdminDown(false)` just clears the flag.  The pseudo
delete-session event frees the (already detached, spec section 4.5)
session and never touches the slots.  Every other event is dispatched by
state; events that match no row of the current state's table are strays
(spec section 7): discarded in Idle, `OnIdleError(code 5)` elsewhere;
events whose session matches neither slot are discarded. -/
def step (sm : StateMachine) (e : Event) : StateMachine :=
  match e with
  | .EvStop => OnIdle sm
  | .EvAdminDown d =>
    if d then enterIdle { sm with admin_down := true }
    else { sm with admin_down := false }
  | .EvTcpDeleteSession _ => sm
  | _ =>
    match sm.state with
    | .IDLE => stepIdle sm e
    | .ACTIVE => stepActive sm e
    | .CONNECT => stepConnect sm e
    | .OPENSENT => stepOpenSent sm e
    | .OPENCONFIRM => stepOpenConfirm sm e
    | .ESTABLISHED => stepEstablished sm e

/-- Dispatch a whole sequence of events, first to last. -/
def run (sm : StateMachine) : List Event → StateMachine
  | [] => sm
  | e :: es => run (step sm e) es

/-- The freshly initialized state machine for a peer with the given local
router id: Idle, no sessions, no timers running, the configured hold time
`kHoldTime` and the initial idle hold time `kIdleHoldTime`
(spec sections 3 and 4.3). -/
def initSM (localId : Nat) : StateMachine :=
  { state := .IDLE, active_session := none, passive_session := none,
    connectTimerRunning := false, openTimerRunning := false,
    holdTimerRunning := false, idleHoldTimerRunning := false,
    hold_time := kHoldTime, idle_hold_time := kIdleHoldTime,
    attempts := 0, admin_down := false, deleted := false,
    localId := localId, peerId := 0, nextSessionId := 0,
    last_notification_in := (0, 0, ""), last_notification_out := (0, 0, "") }

/-- `StateMachine::EventContainer` (`state_machine.h` lines 174-177): the
queued event together with its optional validator predicate. -/
structure EventContainer where
  event : Event
  validate : Option (StateMachine → Bool)

/-- `StateMachine::DequeueEvent` (declared in `state_machine.h` line 192).
Modelled from the spec (sections 4.1, 4.2, 7): events dequeued after
shutdown are discarded; otherwise the validator, when present, is
evaluated against the current state right before dispatch, and a false
verdict discards the event without feeding it to the state machine. -/
def DequeueEvent (sm : StateMachine) (ec : EventContainer) : StateMachine :=
  if sm.deleted then sm
  else
    match ec.validate with
    | some v => if v sm then step sm ec.event else sm
    | none => step sm ec.event

/-- `StateMachine::Enqueue` (declared in `state_machine.h` line 191).
Modelled from the spec (section 4.1): appending to the per-peer FIFO
queue; an enqueue after shutdown is silently dropped. -/
def Enqueue (sm : StateMachine) (q : List EventContainer)
    (ec : EventContainer) : List EventContainer :=
  if sm.deleted then q else q ++ [ec]

/-- `StateMachine::Shutdown` (declared in `state_machine.h` line 97).
Modelled from the spec (sections 3 and 7): the terminal transition —
everything is torn down, the FSM parks in Idle with no timer running and
`deleted_` set. -/
def Shutdown (sm : StateMachine) : StateMachine :=
  { enterIdle sm with deleted := true, idleHoldTimerRunning := false }

/-- Dequeue a whole sequence of event containers, first to last. -/
def runDequeue (sm : StateMachine) : List EventContainer → StateMachine
  | [] => sm
  | ec :: ecs => runDequeue (DequeueEvent sm ec) ecs

end BgpFsm

namespace BgpFsm

/-- Expected hold-timer running flag per state (spec invariant 3). -/
def holdExpect : State → Bool
  | .OPENSENT => true
  | .OPENCONFIRM => true
  | .ESTABLISHED => true
  | _ => false

/-- Exactly one of the two session slots is occupied (spec invariant 1). -/
def ExactlyOneSession (sm : StateMachine) : Prop :=
  (sm.active_session ≠ none ∧ sm.passive_session = none) ∨
  (sm.active_session = none ∧ sm.passive_session ≠ none)

/-- The inductive invariant of the state machine: the session-slot
invariant for OpenConfirm/Established, the three timer-running invariants
of spec section 3 (items 3-5), and the fact that the idle hold backoff is
0 while Established. -/
def Inv (sm : StateMachine) : Prop :=
  ((sm.state = .OPENCONFIRM ∨ sm.state = .ESTABLISHED) → ExactlyOneSession sm) ∧
  sm.holdTimerRunning = holdExpect sm.state ∧
  (sm.connectTimerRunning = true → sm.state = .ACTIVE ∨ sm.state = .CONNECT) ∧
  (sm.idleHoldTimerRunning = true → sm.state = .IDLE ∧ sm.admin_down = false) ∧
  (sm.state = .ESTABLISHED → sm.idle_hold_time = 0)

/-- Modelled from the spec: the duration, in seconds, of a started
Connect timer (spec sections 4.3 and 4.4: base `kConnectInterval`,
multiplied by a random jitter factor; the factor is passed as the
parameter `f`). -/
def connectTimerDuration (f : ℚ) : ℚ := (kConnectInterval : ℚ) * f

/-- Modelled from the spec: the duration of a started IdleHold timer:
the current backoff `base` (milliseconds) multiplied by the random
jitter factor `f`. -/
def idleHoldTimerDuration (base : ℚ) (f : ℚ) : ℚ := base * f

/-- Modelled from the spec: the Open timer fires at exactly its base
duration `kOpenTime`, with no jitter (spec section 4.4). -/
def openTimerDuration : ℚ := (kOpenTime : ℚ)

/-- Modelled from the spec: the Hold timer fires at exactly the
negotiated hold time, with no jitter (spec section 4.4). -/
def holdTimerDuration (negotiated : ℚ) : ℚ := negotiated

/-- The session record of the BFD health-check integration as observed by
`BfdProto::GetSourceAddress` in `src/vnsw/agent/services/bfd_proto.cc`:
only the `source_ip()` accessor is consulted (the IP address is modelled
as a number). -/
structure HealthCheckInstanceService where
  source_ip : Nat
deriving DecidableEq, Repr

/-- Lookup in `BfdProto::sessions_`, the map from interface id to
health-check instance service (`sessions_.find(interface)` in
`bfd_proto.cc`); the map is modelled as an association list. -/
def sessionsFind :
    List (Nat × HealthCheckInstanceService) → Nat →
      Option HealthCheckInstanceService
  | [], _ => none
  | (k, svc) :: rest, itf =>
    if k = itf then some svc else sessionsFind rest itf

/-- `BfdProto::GetSourceAddress` (`bfd_proto.cc` lines 118-126): look up
the BFD session registered for the interface id; if none is found return
false and leave the output address parameter unmodified, otherwise return
true with the address set to the session's source IP.  The C++
out-parameter is modelled by returning the pair (result, address). -/
def GetSourceAddress (sessions : List (Nat × HealthCheckInstanceService))
    (interface : Nat) (address : Nat) : Bool × Nat :=
  match sessionsFind sessions interface with
  | none => (false, address)
  | some svc => (true, svc.source_ip)

theorem inv_enterIdle (sm : StateMachine) : Inv (enterIdle sm) := by
  refine ⟨?_, ?_, ?_, ?_, ?_⟩ <;>
    simp [enterIdle, holdExpect, Bool.and_eq_true]
  intro h
  simp_all

theorem inv_OnIdleFlap (sm : StateMachine) : Inv (OnIdleFlap sm) :=
  inv_enterIdle _

theorem inv_OnIdle (sm : StateMachine) : Inv (OnIdle sm) :=
  inv_enterIdle _

theorem inv_OnIdleError (sm : StateMachine) (code : Nat) :
    Inv (OnIdleError sm code) :=
  inv_enterIdle _

theorem inv_OnIdleNotification (sm : StateMachine) (c s : Nat) (r : String) :
    Inv (OnIdleNotification sm c s r) :=
  inv_enterIdle _

theorem inv_enterActive (sm : StateMachine) : Inv (enterActive sm) := by
  refine ⟨?_, ?_, ?_, ?_, ?_⟩ <;> simp [enterActive, holdExpect]

theorem inv_enterConnect (sm : StateMachine) : Inv (enterConnect sm) := by
  refine ⟨?_, ?_, ?_, ?_, ?_⟩ <;> simp [enterConnect, holdExpect]

theorem inv_enterOpenSent (sm : StateMachine) : Inv (enterOpenSent sm) := by
  refine ⟨?_, ?_, ?_, ?_, ?_⟩ <;> simp [enterOpenSent, holdExpect]

theorem inv_enterOpenConfirm (sm : StateMachine)
    (hEx : ExactlyOneSession sm) : Inv (enterOpenConfirm sm) := by
  refine ⟨?_, ?_, ?_, ?_, ?_⟩ <;> simp [enterOpenConfirm, holdExpect]
  exact hEx

theorem inv_enterEstablished (sm : StateMachine)
    (hEx : ExactlyOneSession sm) : Inv (enterEstablished sm) := by
  refine ⟨?_, ?_, ?_, ?_, ?_⟩ <;>
    simp [enterEstablished, reset_idle_hold_time, holdExpect]
  exact hEx

end BgpFsm

namespace BgpFsm

theorem inv_stepIdle (sm : StateMachine) (e : Event) (h : Inv sm) :
    Inv (stepIdle sm e) := by
  cases e <;> simp only [stepIdle] <;>
    first
      | exact inv_enterActive _
      | exact h

theorem inv_stepActive (sm : StateMachine) (e : Event)
    (hst : sm.state = .ACTIVE) (h : Inv sm) : Inv (stepActive sm e) := by
  obtain ⟨h1, h2, h3, h4, h5⟩ := h
  cases e <;> simp only [stepActive] <;>
    first
      | exact inv_OnIdleError _ _
      | exact inv_OnIdleNotification _ _ _ _
      | exact inv_enterConnect _
      | exact inv_enterOpenSent _
      | exact ⟨h1, h2, h3, h4, h5⟩
      | skip
  case EvTcpClose sid =>
    cases hp : sm.passive_session with
    | none => exact ⟨h1, h2, h3, h4, h5⟩
    | some p =>
      by_cases hid : sid = p.id
      · simp only [hid, if_pos rfl]
        refine ⟨?_, ?_, ?_, ?_, ?_⟩ <;> simp_all [holdExpect]
      · simp only [if_neg hid]
        exact ⟨h1, h2, h3, h4, h5⟩

end BgpFsm

namespace BgpFsm

theorem inv_stepConnect (sm : StateMachine) (e : Event)
    (hst : sm.state = .CONNECT) (h : Inv sm) : Inv (stepConnect sm e) := by
  obtain ⟨h1, h2, h3, h4, h5⟩ := h
  cases e <;> simp only [stepConnect] <;>
    first
      | exact inv_OnIdleError _ _
      | exact inv_OnIdleNotification _ _ _ _
      | exact inv_enterActive _
      | exact ⟨h1, h2, h3, h4, h5⟩
      | skip
  case EvTcpConnected sid =>
    cases ha : sm.active_session with
    | none => exact ⟨h1, h2, h3, h4, h5⟩
    | some a =>
      by_cases hid : sid = a.id
      · simp only [hid, if_pos rfl]
        exact inv_enterOpenSent _
      · simp only [if_neg hid]
        exact ⟨h1, h2, h3, h4, h5⟩
  case EvTcpConnectFail sid =>
    cases ha : sm.active_session with
    | none => exact ⟨h1, h2, h3, h4, h5⟩
    | some a =>
      by_cases hid : sid = a.id
      · simp only [hid, if_pos rfl]
        exact inv_enterActive _
      · simp only [if_neg hid]
        exact ⟨h1, h2, h3, h4, h5⟩
  case EvTcpPassiveOpen sid =>
    refine ⟨?_, ?_, ?_, ?_, ?_⟩ <;> simp_all [holdExpect]

theorem inv_collisionResolve (sm : StateMachine) (a p : Session)
    (ha : sm.active_session = some a) (hp : sm.passive_session = some p) :
    Inv (collisionResolve sm) := by
  unfold collisionResolve
  by_cases hlp : sm.localId < sm.peerId
  · simp only [if_pos hlp]
    apply inv_enterOpenConfirm
    right
    simp [SendNotificationAndClose, set_last_notification_out, hp]
  · simp only [if_neg hlp]
    by_cases hpl : sm.peerId < sm.localId
    · simp only [if_pos hpl]
      apply inv_enterOpenConfirm
      left
      simp [SendNotificationAndClose, set_last_notification_out, ha]
    · simp only [if_neg hpl]
      exact inv_OnIdleFlap _

theorem inv_processOpen (sm : StateMachine) (sid rid ht : Nat)
    (hst : sm.state = .OPENSENT) (h : Inv sm) :
    Inv (processOpen sm sid rid ht) := by
  obtain ⟨h1, h2, h3, h4, h5⟩ := h
  unfold processOpen
  cases ha : sm.active_session with
  | none =>
    cases hp : sm.passive_session with
    | none => exact ⟨h1, h2, h3, h4, h5⟩
    | some p =>
      by_cases hid : sid = p.id
      · simp only [hid, if_pos rfl]
        apply inv_enterOpenConfirm
        right
        constructor <;> simp
      · simp only [if_neg hid]
        exact ⟨h1, h2, h3, h4, h5⟩
  | some a =>
    cases hp : sm.passive_session with
    | none =>
      by_cases hid : sid = a.id
      · simp only [hid, if_pos rfl]
        apply inv_enterOpenConfirm
        left
        constructor <;> simp
      · simp only [if_neg hid]
        exact ⟨h1, h2, h3, h4, h5⟩
    | some p =>
      by_cases hid : sid = a.id
      · simp only [hid, if_pos rfl]
        by_cases hpo : p.openRcvd
        · simp only [if_pos hpo]
          exact inv_collisionResolve _ ⟨a.id, true⟩ p (by simp) (by simp [hp])
        · simp only [if_neg hpo]
          refine ⟨?_, ?_, ?_, ?_, ?_⟩ <;> simp_all [holdExpect]
      · simp only [if_neg hid]
        by_cases hid2 : sid = p.id
        · simp only [hid2, if_pos rfl]
          by_cases hao : a.openRcvd
          · simp only [if_pos hao]
            exact inv_collisionResolve _ a ⟨p.id, true⟩ (by simp [ha]) (by simp)
          · simp only [if_neg hao]
            refine ⟨?_, ?_, ?_, ?_, ?_⟩ <;> simp_all [holdExpect]
        · simp only [if_neg hid2]
          exact ⟨h1, h2, h3, h4, h5⟩

end BgpFsm

namespace BgpFsm

theorem inv_stepOpenSent (sm : StateMachine) (e : Event)
    (hst : sm.state = .OPENSENT) (h : Inv sm) : Inv (stepOpenSent sm e) := by
  obtain ⟨h1, h2, h3, h4, h5⟩ := h
  cases e <;> simp only [stepOpenSent] <;>
    first
      | exact inv_OnIdleError _ _
      | exact inv_OnIdleNotification _ _ _ _
      | exact inv_processOpen _ _ _ _ hst ⟨h1, h2, h3, h4, h5⟩
      | exact ⟨h1, h2, h3, h4, h5⟩
      | skip
  case EvTcpClose sid =>
    cases ha : sm.active_session with
    | none =>
      cases hp : sm.passive_session with
      | none => exact ⟨h1, h2, h3, h4, h5⟩
      | some p =>
        by_cases hid : sid = p.id
        · simp only [hid, if_pos rfl]
          exact inv_OnIdleFlap _
        · simp only [if_neg hid]
          exact ⟨h1, h2, h3, h4, h5⟩
    | some a =>
      cases hp : sm.passive_session with
      | none =>
        by_cases hid : sid = a.id
        · simp only [hid, if_pos rfl]
          exact inv_OnIdleFlap _
        · simp only [if_neg hid]
          exact ⟨h1, h2, h3, h4, h5⟩
      | some p =>
        by_cases hid : sid = a.id
        · simp only [hid, if_pos rfl]
          refine ⟨?_, ?_, ?_, ?_, ?_⟩ <;> simp_all [holdExpect]
        · simp only [if_neg hid]
          by_cases hid2 : sid = p.id
          · simp only [hid2, if_pos rfl]
            refine ⟨?_, ?_, ?_, ?_, ?_⟩ <;> simp_all [holdExpect]
          · simp only [if_neg hid2]
            exact ⟨h1, h2, h3, h4, h5⟩

theorem inv_stepOpenConfirm (sm : StateMachine) (e : Event)
    (hst : sm.state = .OPENCONFIRM) (h : Inv sm) :
    Inv (stepOpenConfirm sm e) := by
  obtain ⟨h1, h2, h3, h4, h5⟩ := h
  cases e <;> simp only [stepOpenConfirm] <;>
    first
      | exact inv_OnIdleError _ _
      | exact inv_OnIdleNotification _ _ _ _
      | exact ⟨h1, h2, h3, h4, h5⟩
      | skip
  case EvBgpKeepalive sid =>
    by_cases hm : sessionMatch sm sid
    · simp only [hm, if_pos]
      exact inv_enterEstablished _ (h1 (Or.inl hst))
    · simp only [hm, if_neg, Bool.false_eq_true, not_false_eq_true]
      exact ⟨h1, h2, h3, h4, h5⟩

theorem inv_stepEstablished (sm : StateMachine) (e : Event)
    (hst : sm.state = .ESTABLISHED) (h : Inv sm) :
    Inv (stepEstablished sm e) := by
  obtain ⟨h1, h2, h3, h4, h5⟩ := h
  cases e <;> simp only [stepEstablished] <;>
    first
      | exact inv_OnIdleError _ _
      | exact inv_OnIdleNotification _ _ _ _
      | exact ⟨h1, h2, h3, h4, h5⟩
      | skip
  case EvBgpKeepalive sid =>
    by_cases hm : sessionMatch sm sid
    · simp only [hm, if_pos]
      refine ⟨?_, ?_, ?_, ?_, ?_⟩ <;> simp_all [holdExpect, ExactlyOneSession]
    · simp only [hm, if_neg, Bool.false_eq_true, not_false_eq_true]
      exact ⟨h1, h2, h3, h4, h5⟩
  case EvBgpUpdate sid =>
    by_cases hm : sessionMatch sm sid
    · simp only [hm, if_pos]
      refine ⟨?_, ?_, ?_, ?_, ?_⟩ <;> simp_all [holdExpect, ExactlyOneSession]
    · simp only [hm, if_neg, Bool.false_eq_true, not_false_eq_true]
      exact ⟨h1, h2, h3, h4, h5⟩
  case EvTcpClose sid =>
    by_cases hm : sessionMatch sm sid
    · simp only [hm, if_pos]
      exact inv_OnIdleFlap _
    · simp only [hm, if_neg, Bool.false_eq_true, not_false_eq_true]
      exact ⟨h1, h2, h3, h4, h5⟩

theorem inv_step (sm : StateMachine) (e : Event) (h : Inv sm) :
    Inv (step sm e) := by
  obtain ⟨h1, h2, h3, h4, h5⟩ := h
  cases e <;> simp only [step] <;>
    first
      | exact inv_OnIdle _
      | exact ⟨h1, h2, h3, h4, h5⟩
      | skip
  case EvAdminDown d =>
    cases d with
    | true =>
      simp only [if_pos]
      exact inv_enterIdle _
    | false =>
      simp only [if_neg, Bool.false_eq_true, not_false_eq_true]
      refine ⟨?_, ?_, ?_, ?_, ?_⟩ <;> simp_all [ExactlyOneSession]
  all_goals
    cases hst : sm.state <;>
      first
        | exact inv_stepIdle sm _ ⟨h1, h2, h3, h4, h5⟩
        | exact inv_stepActive sm _ hst ⟨h1, h2, h3, h4, h5⟩
        | exact inv_stepConnect sm _ hst ⟨h1, h2, h3, h4, h5⟩
        | exact inv_stepOpenSent sm _ hst ⟨h1, h2, h3, h4, h5⟩
        | exact inv_stepOpenConfirm sm _ hst ⟨h1, h2, h3, h4, h5⟩
        | exact inv_stepEstablished sm _ hst ⟨h1, h2, h3, h4, h5⟩

theorem inv_run (evs : List Event) (sm : StateMachine) (h : Inv sm) :
    Inv (run sm evs) := by
  induction evs generalizing sm with
  | nil => exact h
  | cons e es ih => exact ih (step sm e) (inv_step sm e h)

theorem inv_initSM (localId : Nat) : Inv (initSM localId) := by
  refine ⟨?_, ?_, ?_, ?_, ?_⟩ <;> simp [initSM, holdExpect]

end BgpFsm

namespace BgpFsm

/-- C1: when the FSM is in OpenSent holding both an active and a passive
session, the passive one has already seen its OPEN, and the OPEN for the
active session arrives (completing the OPEN exchange on both), collision
resolution keeps the session initiated by the peer with the numerically
higher BGP identifier and closes the other with Notification(Cease = 6),
proceeding to OpenConfirm; equal identifiers are a configuration error
and the FSM transitions to Idle. -/
theorem collision_resolution_spec (sm : StateMachine) (a p : Session)
    (rid ht : Nat)
    (hst : sm.state = .OPENSENT)
    (ha : sm.active_session = some a)
    (hp : sm.passive_session = some p)
    (hpo : p.openRcvd = true) :
    (sm.localId < rid →
      (step sm (.EvBgpOpen a.id rid ht)).state = .OPENCONFIRM ∧
      (step sm (.EvBgpOpen a.id rid ht)).active_session = none ∧
      (step sm (.EvBgpOpen a.id rid ht)).passive_session = some p ∧
      (step sm (.EvBgpOpen a.id rid ht)).last_notification_out = (6, 0, "")) ∧
    (rid < sm.localId →
      (step sm (.EvBgpOpen a.id rid ht)).state = .OPENCONFIRM ∧
      (step sm (.EvBgpOpen a.id rid ht)).active_session = some ⟨a.id, true⟩ ∧
      (step sm (.EvBgpOpen a.id rid ht)).passive_session = none ∧
      (step sm (.EvBgpOpen a.id rid ht)).last_notification_out = (6, 0, "")) ∧
    (rid = sm.localId →
      (step sm (.EvBgpOpen a.id rid ht)).state = .IDLE) := by
  refine ⟨?_, ?_, ?_⟩ <;> intro hcmp
  · simp [step, hst, stepOpenSent, processOpen, ha, hp, hpo, collisionResolve,
      hcmp, SendNotificationAndClose, set_last_notification_out,
      enterOpenConfirm]
  · have hn : ¬ sm.localId < rid := by omega
    simp [step, hst, stepOpenSent, processOpen, ha, hp, hpo, collisionResolve,
      hcmp, hn, SendNotificationAndClose, set_last_notification_out,
      enterOpenConfirm]
  · have hn : ¬ sm.localId < rid := by omega
    have hn2 : ¬ rid < sm.localId := by omega
    simp [step, hst, stepOpenSent, processOpen, ha, hp, hpo, collisionResolve,
      hn, hn2, OnIdleFlap, enterIdle]

/-- Witness for C1: a concrete collision in OpenSent, peer id 20 against
local id 10 (peer wins: passive kept, active closed with Cease) and local
id 30 against peer id 20 (local wins: active kept). -/
theorem collision_resolution_spec_witness :
    ((step { initSM 10 with
        state := .OPENSENT, holdTimerRunning := true,
        active_session := some ⟨0, false⟩, passive_session := some ⟨1, true⟩ }
      (.EvBgpOpen 0 20 90)).state = .OPENCONFIRM ∧
     (step { initSM 10 with
        state := .OPENSENT, holdTimerRunning := true,
        active_session := some ⟨0, false⟩, passive_session := some ⟨1, true⟩ }
      (.EvBgpOpen 0 20 90)).active_session = none ∧
     (step { initSM 10 with
        state := .OPENSENT, holdTimerRunning := true,
        active_session := some ⟨0, false⟩, passive_session := some ⟨1, true⟩ }
      (.EvBgpOpen 0 20 90)).passive_session = some ⟨1, true⟩ ∧
     (step { initSM 10 with
        state := .OPENSENT, holdTimerRunning := true,
        active_session := some ⟨0, false⟩, passive_session := some ⟨1, true⟩ }
      (.EvBgpOpen 0 20 90)).last_notification_out = (6, 0, "")) ∧
    (step { initSM 30 with
        state := .OPENSENT, holdTimerRunning := true,
        active_session := some ⟨0, false⟩, passive_session := some ⟨1, true⟩ }
      (.EvBgpOpen 0 20 90)).state = .OPENCONFIRM ∧
    (step { initSM 20 with
        state := .OPENSENT, holdTimerRunning := true,
        active_session := some ⟨0, false⟩, passive_session := some ⟨1, true⟩ }
      (.EvBgpOpen 0 20 90)).state = .IDLE := by
  refine ⟨?_, ?_, ?_⟩
  · exact (collision_resolution_spec _ ⟨0, false⟩ ⟨1, true⟩ 20 90 rfl rfl rfl
      rfl).1 (by decide)
  · exact ((collision_resolution_spec _ ⟨0, false⟩ ⟨1, true⟩ 20 90 rfl rfl rfl
      rfl).2.1 (by decide)).1
  · exact (collision_resolution_spec _ ⟨0, false⟩ ⟨1, true⟩ 20 90 rfl rfl rfl
      rfl).2.2 (by decide)

end BgpFsm

namespace BgpFsm

theorem holdExpect_eq_true_iff (s : State) :
    holdExpect s = true ↔
      (s = .OPENSENT ∨ s = .OPENCONFIRM ∨ s = .ESTABLISHED) := by
  cases s <;> simp [holdExpect]

/-- C2: after any sequence of dispatched events, if the FSM state is
Established then exactly one of the two session slots is non-null and the
other is null. -/
theorem established_exactly_one_session (localId : Nat) (evs : List Event)
    (hEst : (run (initSM localId) evs).state = .ESTABLISHED) :
    ((run (initSM localId) evs).active_session ≠ none ∧
      (run (initSM localId) evs).passive_session = none) ∨
    ((run (initSM localId) evs).active_session = none ∧
      (run (initSM localId) evs).passive_session ≠ none) :=
  (inv_run evs _ (inv_initSM localId)).1 (Or.inr hEst)

/-- Witness for C2: a concrete event sequence that establishes the peering
over the active session. -/
theorem established_exactly_one_session_witness :
    (run (initSM 10) [.EvStart, .EvConnectTimerExpired, .EvTcpConnected 0,
      .EvBgpOpen 0 7 90, .EvBgpKeepalive 0]).state = .ESTABLISHED ∧
    (((run (initSM 10) [.EvStart, .EvConnectTimerExpired, .EvTcpConnected 0,
        .EvBgpOpen 0 7 90, .EvBgpKeepalive 0]).active_session ≠ none ∧
      (run (initSM 10) [.EvStart, .EvConnectTimerExpired, .EvTcpConnected 0,
        .EvBgpOpen 0 7 90, .EvBgpKeepalive 0]).passive_session = none) ∨
     ((run (initSM 10) [.EvStart, .EvConnectTimerExpired, .EvTcpConnected 0,
        .EvBgpOpen 0 7 90, .EvBgpKeepalive 0]).active_session = none ∧
      (run (initSM 10) [.EvStart, .EvConnectTimerExpired, .EvTcpConnected 0,
        .EvBgpOpen 0 7 90, .EvBgpKeepalive 0]).passive_session ≠ none)) :=
  ⟨by decide, established_exactly_one_session 10 _ (by decide)⟩

/-- C3: after any sequence of dispatched events, the HoldTimer is running
iff the state is OpenSent, OpenConfirm or Established; a running
ConnectTimer implies state Active or Connect; and a running IdleHoldTimer
implies state Idle with the peer not administratively down. -/
theorem timer_running_invariants (localId : Nat) (evs : List Event) :
    ((run (initSM localId) evs).holdTimerRunning = true ↔
      ((run (initSM localId) evs).state = .OPENSENT ∨
       (run (initSM localId) evs).state = .OPENCONFIRM ∨
       (run (initSM localId) evs).state = .ESTABLISHED)) ∧
    ((run (initSM localId) evs).connectTimerRunning = true →
      (run (initSM localId) evs).state = .ACTIVE ∨
      (run (initSM localId) evs).state = .CONNECT) ∧
    ((run (initSM localId) evs).idleHoldTimerRunning = true →
      (run (initSM localId) evs).state = .IDLE ∧
      (run (initSM localId) evs).admin_down = false) := by
  obtain ⟨h1, h2, h3, h4, h5⟩ := inv_run evs _ (inv_initSM localId)
  refine ⟨?_, h3, h4⟩
  rw [h2, holdExpect_eq_true_iff]

/-- Witness for C3: each timer fact observed on a concrete reachable
state: the HoldTimer runs once Established; the ConnectTimer runs in
Active right after Start; the IdleHoldTimer runs in Idle right after a
hold-timer flap with the peer not admin-down. -/
theorem timer_running_invariants_witness :
    (run (initSM 10) [.EvStart, .EvConnectTimerExpired, .EvTcpConnected 0,
      .EvBgpOpen 0 7 90, .EvBgpKeepalive 0]).holdTimerRunning = true ∧
    ((run (initSM 10) [.EvStart]).state = .ACTIVE ∨
     (run (initSM 10) [.EvStart]).state = .CONNECT) ∧
    ((run (initSM 10) [.EvStart, .EvConnectTimerExpired, .EvTcpConnected 0,
       .EvHoldTimerExpired]).state = .IDLE ∧
     (run (initSM 10) [.EvStart, .EvConnectTimerExpired, .EvTcpConnected 0,
       .EvHoldTimerExpired]).admin_down = false) :=
  ⟨(timer_running_invariants 10 _).1.mpr (Or.inr (Or.inr (by decide))),
   (timer_running_invariants 10 _).2.1 (by decide),
   (timer_running_invariants 10 _).2.2 (by decide)⟩

end BgpFsm

namespace BgpFsm

theorem flap_backoff (sm : StateMachine) (e : Event)
    (hstop : e ≠ .EvStop) (hadmin : ∀ d, e ≠ .EvAdminDown d)
    (hne : sm.state ≠ .IDLE) (hIdle : (step sm e).state = .IDLE) :
    (step sm e).idle_hold_time = nextIdleHoldTime sm.idle_hold_time := by
  cases e <;>
    first
      | exact absurd rfl hstop
      | exact absurd rfl (hadmin _)
      | exact absurd hIdle hne
      | (revert hIdle
         cases hst : sm.state <;>
           simp_all only [step, stepIdle, stepActive, stepConnect,
             stepOpenSent, stepOpenConfirm, stepEstablished, processOpen,
             collisionResolve, OnIdleError, OnIdleNotification, OnIdleFlap,
             OnIdle, enterIdle, enterActive, enterConnect, enterOpenSent,
             enterOpenConfirm, enterEstablished, SendNotificationAndClose,
             set_last_notification_out, set_last_notification_in,
             reset_idle_hold_time, connect_attempts_inc, StartSession,
             sessionMatch, ne_eq, not_false_eq_true, reduceCtorEq,
             imp_false] <;>
           (repeat' split) <;>
           simp_all)

end BgpFsm

namespace BgpFsm

/-- C4 counterexample: after a clean transition to Established the backoff
is 0; the very next flap (hold-timer expiry drops the FSM to Idle) sets
`idle_hold_time` to 5000 ms, whereas the claimed formula
min(2 x previous, 100000) yields 0 there. -/
theorem flap_min_formula_counterexample :
    (run (initSM 10) [.EvStart, .EvConnectTimerExpired, .EvTcpConnected 0, .EvBgpOpen 0 7 90, .EvBgpKeepalive 0]).state = .ESTABLISHED ∧
    (run (initSM 10) [.EvStart, .EvConnectTimerExpired, .EvTcpConnected 0, .EvBgpOpen 0 7 90, .EvBgpKeepalive 0]).idle_hold_time = 0 ∧
    (step (run (initSM 10) [.EvStart, .EvConnectTimerExpired, .EvTcpConnected 0, .EvBgpOpen 0 7 90, .EvBgpKeepalive 0]) .EvHoldTimerExpired).state = .IDLE ∧
    (step (run (initSM 10) [.EvStart, .EvConnectTimerExpired, .EvTcpConnected 0, .EvBgpOpen 0 7 90, .EvBgpKeepalive 0]) .EvHoldTimerExpired).idle_hold_time = 5000 ∧
    min (2 * (run (initSM 10) [.EvStart, .EvConnectTimerExpired, .EvTcpConnected 0, .EvBgpOpen 0 7 90, .EvBgpKeepalive 0]).idle_hold_time) kMaxIdleHoldTime = 0 ∧
    (5000 : Nat) ≠ 0 :=
  ⟨by decide, by decide, by decide, by decide, by decide, by decide⟩

/-- C4 (amended): on every flap — a step that drops a non-Idle state to
Idle, other than the administrative `Stop`/`AdminDown` drops — the
resulting `idle_hold_time` equals
`nextIdleHoldTime previous = min (max 5000 (2 * previous)) 100000`
(doubling with a 5000 ms floor and a 100 s ceiling), and `idle_hold_time`
equals 0 immediately after the FSM reaches Established. -/
theorem flap_backoff_and_established_reset (localId : Nat)
    (evs : List Event) (e : Event)
    (hstop : e ≠ .EvStop) (hadmin : ∀ d, e ≠ .EvAdminDown d) :
    ((step (run (initSM localId) evs) e).state = .IDLE →
      (run (initSM localId) evs).state ≠ .IDLE →
      (step (run (initSM localId) evs) e).idle_hold_time =
        nextIdleHoldTime (run (initSM localId) evs).idle_hold_time) ∧
    ((step (run (initSM localId) evs) e).state = .ESTABLISHED →
      (step (run (initSM localId) evs) e).idle_hold_time = 0) :=
  ⟨fun hIdle hne => flap_backoff _ e hstop hadmin hne hIdle,
   fun hEst =>
     (inv_step _ e (inv_run evs _ (inv_initSM localId))).2.2.2.2 hEst⟩

/-- Witness for C4 (amended): the flap out of Established computes
`nextIdleHoldTime 0 = 5000`, and the keepalive completing the handshake
resets the backoff to 0. -/
theorem flap_backoff_and_established_reset_witness :
    (step (run (initSM 10) [.EvStart, .EvConnectTimerExpired, .EvTcpConnected 0, .EvBgpOpen 0 7 90, .EvBgpKeepalive 0]) .EvHoldTimerExpired).idle_hold_time =
      nextIdleHoldTime (run (initSM 10) [.EvStart, .EvConnectTimerExpired, .EvTcpConnected 0, .EvBgpOpen 0 7 90, .EvBgpKeepalive 0]).idle_hold_time ∧
    (step (run (initSM 10) [.EvStart, .EvConnectTimerExpired, .EvTcpConnected 0, .EvBgpOpen 0 7 90]) (.EvBgpKeepalive 0)).idle_hold_time = 0 :=
  ⟨(flap_backoff_and_established_reset 10 _ .EvHoldTimerExpired
      (fun h => Event.noConfusion h) (fun _ h => Event.noConfusion h)).1
      (by decide) (by decide),
   (flap_backoff_and_established_reset 10 _ (.EvBgpKeepalive 0)
      (fun h => Event.noConfusion h) (fun _ h => Event.noConfusion h)).2
      (by decide)⟩

/-- C5 counterexample: in Connect with the in-flight active session 0, a
`TcpConnectFailed` for it moves the FSM to Active, not Connect: the claim
that the FSM stays in Connect fails on this input. -/
theorem connect_fail_stays_connect_counterexample :
    (run (initSM 10) [.EvStart, .EvConnectTimerExpired]).state = .CONNECT ∧
    (step (run (initSM 10) [.EvStart, .EvConnectTimerExpired]) (.EvTcpConnectFail 0)).state = .ACTIVE ∧
    (step (run (initSM 10) [.EvStart, .EvConnectTimerExpired]) (.EvTcpConnectFail 0)).state ≠ .CONNECT :=
  ⟨by decide, by decide, by decide⟩

/-- C5 (amended): in Connect, a `TcpConnectFailed` for the in-flight
active session increments the connect-attempts counter by exactly 1,
restarts the ConnectTimer, and the FSM falls back to Active (per the
spec's end-to-end scenario 5 and RFC 4271), deleting the failed session. -/
theorem connect_fail_retry (sm : StateMachine) (a : Session)
    (hst : sm.state = .CONNECT) (ha : sm.active_session = some a) :
    (step sm (.EvTcpConnectFail a.id)).attempts = sm.attempts + 1 ∧
    (step sm (.EvTcpConnectFail a.id)).connectTimerRunning = true ∧
    (step sm (.EvTcpConnectFail a.id)).state = .ACTIVE ∧
    (step sm (.EvTcpConnectFail a.id)).active_session = none := by
  simp [step, hst, stepConnect, ha, enterActive, connect_attempts_inc]

/-- Witness for C5 (amended): the concrete connect failure right after
Start and the connect-timer expiry. -/
theorem connect_fail_retry_witness :
    (step (run (initSM 10) [.EvStart, .EvConnectTimerExpired]) (.EvTcpConnectFail 0)).attempts =
      (run (initSM 10) [.EvStart, .EvConnectTimerExpired]).attempts + 1 ∧
    (step (run (initSM 10) [.EvStart, .EvConnectTimerExpired]) (.EvTcpConnectFail 0)).connectTimerRunning = true ∧
    (step (run (initSM 10) [.EvStart, .EvConnectTimerExpired]) (.EvTcpConnectFail 0)).state = .ACTIVE ∧
    (step (run (initSM 10) [.EvStart, .EvConnectTimerExpired]) (.EvTcpConnectFail 0)).active_session = none :=
  connect_fail_retry (run (initSM 10) [.EvStart, .EvConnectTimerExpired])
    ⟨0, false⟩ (by decide) (by decide)

end BgpFsm

namespace BgpFsm

/-- C6: a dequeued event carrying a validator predicate that evaluates to
false against the current FSM state at dequeue time is discarded without
being fed to the state machine: the entire FSM state is unchanged by the
dispatch. -/
theorem validator_false_discards (sm : StateMachine) (ec : EventContainer)
    (v : StateMachine → Bool) (hv : ec.validate = some v)
    (hf : v sm = false) : DequeueEvent sm ec = sm := by
  unfold DequeueEvent
  rw [hv]
  by_cases hd : sm.deleted <;> simp [hd, hf]

/-- Witness for C6: a concrete event container whose validator rejects. -/
theorem validator_false_discards_witness :
    DequeueEvent (initSM 1) ⟨.EvStart, some fun _ => false⟩ = initSM 1 :=
  validator_false_discards (initSM 1) ⟨.EvStart, some fun _ => false⟩
    (fun _ => false) rfl rfl

theorem runDequeue_deleted (ecs : List EventContainer) (sm : StateMachine)
    (h : sm.deleted = true) : runDequeue sm ecs = sm := by
  induction ecs generalizing sm with
  | nil => rfl
  | cons ec ecs ih =>
    have hd : DequeueEvent sm ec = sm := by unfold DequeueEvent; rw [if_pos h]
    simp only [runDequeue, hd]
    exact ih sm h

/-- C8: `Shutdown` sets the deleted flag; once it is set, it never becomes
false again (no sequence of dequeues changes the machine at all), and
every event posted or dispatched afterwards is discarded: a dequeue
leaves the state untouched and an enqueue is silently dropped. -/
theorem shutdown_is_terminal (sm : StateMachine) (ec : EventContainer)
    (q ecs : List EventContainer) (h : sm.deleted = true) :
    (Shutdown sm).deleted = true ∧
    runDequeue (Shutdown sm) ecs = Shutdown sm ∧
    DequeueEvent sm ec = sm ∧
    (DequeueEvent sm ec).deleted = true ∧
    Enqueue sm q ec = q ∧
    (runDequeue sm ecs).deleted = true := by
  have hsd : (Shutdown sm).deleted = true := rfl
  have hde : DequeueEvent sm ec = sm := by unfold DequeueEvent; rw [if_pos h]
  refine ⟨hsd, runDequeue_deleted ecs _ hsd, hde, ?_, ?_, ?_⟩
  · rw [hde]; exact h
  · unfold Enqueue; rw [if_pos h]
  · rw [runDequeue_deleted ecs sm h]; exact h

/-- Witness for C8: the shutdown machine drops a concrete event container
and an enqueue, through a concrete dequeue sequence. -/
theorem shutdown_is_terminal_witness :
    (Shutdown (initSM 1)).deleted = true ∧
    runDequeue (Shutdown (Shutdown (initSM 1))) [⟨.EvStart, none⟩] = Shutdown (Shutdown (initSM 1)) ∧
    DequeueEvent (Shutdown (initSM 1)) ⟨.EvStart, none⟩ = Shutdown (initSM 1) ∧
    (DequeueEvent (Shutdown (initSM 1)) ⟨.EvStart, none⟩).deleted = true ∧
    Enqueue (Shutdown (initSM 1)) [] ⟨.EvStart, none⟩ = [] ∧
    (runDequeue (Shutdown (initSM 1)) [⟨.EvStart, none⟩]).deleted = true :=
  shutdown_is_terminal (Shutdown (initSM 1)) ⟨.EvStart, none⟩ []
    [⟨.EvStart, none⟩] rfl

/-- C9: recording (code, subcode, reason) as the last outbound
notification and then querying the observer interface returns the same
triple. -/
theorem last_notification_out_roundtrip (sm : StateMachine)
    (code subcode : Nat) (reason : String) :
    last_notification_out_info
      (set_last_notification_out sm code subcode reason) =
      (code, subcode, reason) := rfl

/-- C7: every started Connect and IdleHold timer duration is the base
duration times the jitter factor f, so with f anywhere in [0.9, 1.0] the
jittered ConnectInterval lies in [27 s, 30 s] and the jittered IdleHold
duration in [0.9 base, base]; the Open and Hold timers fire at exactly
their base durations with no jitter. -/
theorem timer_jitter_bounds (f : ℚ) (hlo : 9/10 ≤ f) (hhi : f ≤ 1)
    (base : ℚ) (hb : 0 ≤ base) :
    (27 ≤ connectTimerDuration f ∧ connectTimerDuration f ≤ 30) ∧
    (9/10 * base ≤ idleHoldTimerDuration base f ∧
      idleHoldTimerDuration base f ≤ base) ∧
    openTimerDuration = (kOpenTime : ℚ) ∧
    (∀ h : ℚ, holdTimerDuration h = h) := by
  refine ⟨⟨?_, ?_⟩, ⟨?_, ?_⟩, rfl, fun h => rfl⟩ <;>
    simp [connectTimerDuration, idleHoldTimerDuration, kConnectInterval] <;>
    nlinarith

/-- Witness for C7: the extreme jitter factor 0.9 on the Connect timer and
on a 5000 ms IdleHold backoff. -/
theorem timer_jitter_bounds_witness :
    (27 ≤ connectTimerDuration (9/10) ∧ connectTimerDuration (9/10) ≤ 30) ∧
    (9/10 * 5000 ≤ idleHoldTimerDuration 5000 (9/10) ∧
      idleHoldTimerDuration 5000 (9/10) ≤ 5000) ∧
    openTimerDuration = (kOpenTime : ℚ) ∧
    (∀ h : ℚ, holdTimerDuration h = h) :=
  timer_jitter_bounds (9/10) (by norm_num) (by norm_num) 5000 (by norm_num)

/-- C10: `BfdProto::GetSourceAddress` returns false and leaves the output
address unmodified when no BFD session is registered for the interface id,
and returns true with the address set to the registered session's source
IP otherwise. -/
theorem getSourceAddress_spec
    (sessions : List (Nat × HealthCheckInstanceService))
    (interface address : Nat) :
    (sessionsFind sessions interface = none →
      GetSourceAddress sessions interface address = (false, address)) ∧
    (∀ svc, sessionsFind sessions interface = some svc →
      GetSourceAddress sessions interface address = (true, svc.source_ip)) := by
  constructor
  · intro h
    simp [GetSourceAddress, h]
  · intro svc h
    simp [GetSourceAddress, h]

/-- Witness for C10: a registry holding interface 5 with source ip 7:
the lookup of interface 3 misses (false, address untouched) and the
lookup of interface 5 hits (true, source ip 7). -/
theorem getSourceAddress_spec_witness :
    GetSourceAddress [(5, ⟨7⟩)] 3 42 = (false, 42) ∧
    GetSourceAddress [(5, ⟨7⟩)] 5 42 = (true, 7) :=
  ⟨(getSourceAddress_spec [(5, ⟨7⟩)] 3 42).1 rfl,
   (getSourceAddress_spec [(5, ⟨7⟩)] 5 42).2 ⟨7⟩ rfl⟩

end BgpFsm
